import Mathlib

/-!
# Verification of the MapifyOS SDK place-resolution and popup pipeline

A shallow embedding of the SDK's core logic:

* `ApiManager.getPlaceDetails` / `ApiManager.searchPlaces` (src/core/apiManager.js)
* `MapManager.formatPlaceData`, `MapManager.formatCategory`, `MapManager.search`,
  `MapManager.handleMapClick` completion, `MapManager.destroy` (src/core/mapManager.js)
* `PopupUI.createPopupContent`, `PopupUI.escapeHtml` (src/core/popupUI.js)
* `MapifyOS.getPlaceDetails`, `MapifyOS.search`, `MapifyOS.showPopup`,
  `MapifyOS.destroy` (src/index.js)

JavaScript string-or-undefined values are modelled as `Option String`;
the JS truthiness test (`undefined` and `""` are falsy) is `truthy`.
Network lookups are suspension points: each one is modelled as an
`Except String _` input to the function that awaits it, `.error`
standing for a rejected fetch / thrown parse error.  Calls into the
external map-rendering library on a live map are modelled as benign
(the library is out of scope); dereferencing the released map handle
(`this.map` being `null`) is a thrown `TypeError` and is modelled as
`.error`.
-/

/-- JS truthiness of a string-or-undefined value: `undefined`, `null`
and `""` are falsy, every other string is truthy. -/
def truthy : Option String → Bool
  | none => false
  | some s => !(s == "")

/-- JS `a || b` on string-or-undefined values. -/
def jsOr (a b : Option String) : Option String :=
  if truthy a then a else b

/-- JS `a || d` where `d` is a (non-empty) string literal: the final
default of a fallback chain. -/
def jsGetD (a : Option String) (d : String) : String :=
  if truthy a then a.getD d else d

/-- JS `a || null`: collapse a falsy value to an explicit absent value. -/
def jsTruthyOpt (a : Option String) : Option String :=
  if truthy a then a else none

/-- An OSM tag bag: a mapping from string keys to string values
(`overpass.tags`), modelled as an association list. -/
def TagBag := List (String × String)

/-- Property access `tags[k]`: `none` models JS `undefined`. -/
def TagBag.find (t : TagBag) (k : String) : Option String :=
  (List.find? (fun p => p.1 == k) t).map (fun p => p.2)

/-- `s.replace(/_/g, ' ')`. -/
def underscoreToSpace (s : String) : String :=
  ⟨s.data.map (fun c => if c = '_' then ' ' else c)⟩

/-- JS `\w` (ASCII word character). -/
def isWordChar (c : Char) : Bool :=
  c.isAlpha || c.isDigit || c = '_'

/-- Character list walk implementing `replace(/\b\w/g, l => l.toUpperCase())`:
a word character is upper-cased exactly when the previous character (the
flag) was not a word character. -/
def titleCaseAux : Bool → List Char → List Char
  | _, [] => []
  | prevWord, c :: cs =>
      (if isWordChar c && !prevWord then c.toUpper else c) :: titleCaseAux (isWordChar c) cs

/-- `s.replace(/\b\w/g, l => l.toUpperCase())`. -/
def titleCase (s : String) : String :=
  ⟨titleCaseAux false s.data⟩

/-- The formatting applied to a chosen tag value in
`MapManager.formatCategory`: `value.replace(/_/g, ' ').replace(/\b\w/g, l => l.toUpperCase())`. -/
def formatTagValue (v : String) : String :=
  titleCase (underscoreToSpace v)

/-- The candidate keys of `MapManager.formatCategory`'s `categoryMap`,
in the insertion order the `for ... of Object.entries` loop visits. -/
def categoryKeys : List String :=
  ["amenity", "shop", "building", "leisure", "tourism", "highway", "office", "craft"]

/-- First truthy element of a list of string-or-undefined values
(the `for` loop with `if (value)`). -/
def firstTruthy : List (Option String) → Option String
  | [] => none
  | o :: rest => if truthy o then o else firstTruthy rest

namespace MapManager

/-- `MapManager.formatCategory(tags)`: `none` models a null/undefined
`tags` argument (the `if (!tags) return 'Location'` guard); otherwise the
first truthy candidate value, formatted, else `"Location"`. -/
def formatCategory : Option TagBag → String
  | none => "Location"
  | some tags =>
      match firstTruthy (categoryKeys.map tags.find) with
      | some v => formatTagValue v
      | none => "Location"

end MapManager


/-- The JSON object returned by the Nominatim reverse-geocode endpoint,
restricted to the fields the SDK reads (`name`, `display_name`); a missing
field is `none`. -/
structure NominatimData where
  name : Option String
  display_name : Option String
deriving DecidableEq

/-- One element of the Overpass response's `elements` array, restricted to
the field the SDK reads (`tags`, which a raw element may lack). -/
structure OverpassElement where
  tags : Option TagBag

/-- The JSON object returned by the Overpass endpoint: an optional
`elements` array. -/
structure OverpassResponse where
  elements : Option (List OverpassElement)

/-- The merged value `{ nominatim, overpass }` that
`ApiManager.getPlaceDetails` resolves with. -/
structure PlaceDataRaw where
  nominatim : Option NominatimData
  overpass : Option OverpassElement

/-- The record `MapManager.formatPlaceData` (and the facade's
`getPlaceDetails`) returns.  `coordinates` is split into `lat`/`lng`;
coordinates are opaque pass-through values, modelled as integers. -/
structure PlaceRecord where
  name : String
  address : String
  type : String
  phone : String
  website : Option String
  hours : String
  lat : Int
  lng : Int
deriving DecidableEq

/-- The characters before the first comma. -/
def takeUntilComma : List Char → List Char
  | [] => []
  | c :: cs => if c = ',' then [] else c :: takeUntilComma cs

/-- `display_name.split(',')[0]`: the first comma-segment of the display
string — everything before the first comma (the whole string when it has
no comma; an empty string's single segment is empty). -/
def firstCommaSegment (s : String) : String :=
  ⟨takeUntilComma s.data⟩

namespace ApiManager

/-- `ApiManager.getPlaceDetails(lat, lng)`.  Both awaited fetches sit in a
single `try` block, so a rejection of either one (the reverse geocode is
awaited first; if it rejects the tag query is never issued) lands in the
`catch`, which resolves with `{ nominatim: null, overpass: null }`.  On
success it resolves with the parsed Nominatim object and
`overpassData.elements?.[0] || null`. -/
def getPlaceDetails (nominatimFetch : Except String NominatimData)
    (overpassFetch : Except String OverpassResponse) : PlaceDataRaw :=
  match nominatimFetch with
  | .error _ => { nominatim := none, overpass := none }
  | .ok nominatimData =>
      match overpassFetch with
      | .error _ => { nominatim := none, overpass := none }
      | .ok overpassData =>
          { nominatim := some nominatimData
            overpass := (overpassData.elements.getD []).head? }

end ApiManager

namespace MapManager

/-- `MapManager.formatPlaceData(placeData, lat, lng)`: merges the two raw
responses into a `PlaceRecord` by the field-by-field fallback chains of
the source. -/
def formatPlaceData (placeData : PlaceDataRaw) (lat lng : Int) : PlaceRecord :=
  let nominatim := placeData.nominatim
  let tags : TagBag := (placeData.overpass.bind OverpassElement.tags).getD []
  { name := jsGetD (jsOr (tags.find "name")
        (jsOr (nominatim.bind NominatimData.name)
          ((nominatim.bind NominatimData.display_name).map firstCommaSegment)))
      "Unknown Location"
    address := jsGetD (nominatim.bind NominatimData.display_name) "Address not available"
    type := formatCategory (some tags)
    phone := jsGetD (jsOr (tags.find "phone") (tags.find "contact:phone")) "Not available"
    website := jsTruthyOpt (jsOr (tags.find "website")
        (jsOr (tags.find "contact:website") (tags.find "url")))
    hours := jsGetD (tags.find "opening_hours") "Not available"
    lat := lat
    lng := lng }

/-- The whole click-resolution pipeline on the data path:
`ApiManager.getPlaceDetails` followed by `MapManager.formatPlaceData`, as
`MapManager.handleMapClick` composes them. -/
def resolvePlace (nominatimFetch : Except String NominatimData)
    (overpassFetch : Except String OverpassResponse) (lat lng : Int) : PlaceRecord :=
  formatPlaceData (ApiManager.getPlaceDetails nominatimFetch overpassFetch) lat lng

end MapManager

namespace MapifyOS

/-- `MapifyOS.getPlaceDetails(lat, lng)` (the facade's own copy of the
lookup).  Same two sequential awaited fetches in one `try`; the success
path builds the record inline — note its `type` chain
`tags.amenity || tags.shop || tags.office || tags.building || 'Building'`
uses the raw tag values, and its name fallback literal is
`'Unnamed Location'`.  The `catch` resolves with a fixed all-fallback
record. -/
def getPlaceDetails (nominatimFetch : Except String NominatimData)
    (overpassFetch : Except String OverpassResponse) (lat lng : Int) : PlaceRecord :=
  match nominatimFetch with
  | .error _ =>
      { name := "Unknown Location", address := "Address not available"
        type := "Location", phone := "Not available", website := none
        hours := "Not available", lat := lat, lng := lng }
  | .ok nominatimData =>
      match overpassFetch with
      | .error _ =>
          { name := "Unknown Location", address := "Address not available"
            type := "Location", phone := "Not available", website := none
            hours := "Not available", lat := lat, lng := lng }
      | .ok overpassData =>
          let relevantElement := (overpassData.elements.getD []).head?
          let tags : TagBag := (relevantElement.bind OverpassElement.tags).getD []
          { name := jsGetD (jsOr (tags.find "name")
                (jsOr nominatimData.name (nominatimData.display_name.map firstCommaSegment)))
              "Unnamed Location"
            address := jsGetD nominatimData.display_name "Address not available"
            type := jsGetD (jsOr (tags.find "amenity")
                (jsOr (tags.find "shop") (jsOr (tags.find "office") (tags.find "building"))))
              "Building"
            phone := jsGetD (jsOr (tags.find "phone") (tags.find "contact:phone")) "Not available"
            website := jsTruthyOpt (jsOr (tags.find "website")
                (jsOr (tags.find "contact:website") (tags.find "url")))
            hours := jsGetD (tags.find "opening_hours") "Not available"
            lat := lat
            lng := lng }

end MapifyOS

/-- One character of browser text-node serialization: setting
`div.textContent` and reading `div.innerHTML` back escapes `&`, `<` and
`>` (and nothing else — quotes pass through unchanged). -/
def escChar (c : Char) : List Char :=
  if c = '&' then "&amp;".data
  else if c = '<' then "&lt;".data
  else if c = '>' then "&gt;".data
  else [c]

namespace PopupUI

/-- `PopupUI.escapeHtml(text)`: the `textContent`/`innerHTML` round trip. -/
def escapeHtml (text : String) : String :=
  ⟨(text.data.map escChar).flatten⟩

/-- `address.replace(/'/g, "\\'")`: the only transformation applied to the
address before it is spliced into the copy-button's inline `onclick`
handler. -/
def escapeSingleQuotes (s : String) : String :=
  ⟨(s.data.map (fun c => if c = '\'' then ['\\', '\''] else [c])).flatten⟩

/-- `website.replace(/^https?:\/\//, '')`: drop one leading `https://`
or `http://`. -/
def stripProtocol (s : String) : String :=
  if "https://".data.isPrefixOf s.data then ⟨s.data.drop 8⟩
  else if "http://".data.isPrefixOf s.data then ⟨s.data.drop 7⟩
  else s

/-- `.replace(/\/$/, '')`: drop one trailing slash. -/
def stripTrailingSlash (s : String) : String :=
  if s.data.getLast? = some '/' then ⟨s.data.dropLast⟩ else s

/-- The argument object of `PopupUI.createPopupContent`: each field may be
absent (`undefined`), triggering the destructuring default where one is
declared. -/
structure PopupData where
  name : Option String := none
  address : Option String := none
  type : Option String := none
  phone : Option String := none
  website : Option String := none
  hours : Option String := none

/-- The phone contact line, spliced with the raw phone in the `tel:` href
and the escaped phone as the link text. -/
def phoneSection (phone : String) : String :=
  "\n        <div class=\"contact-item\">\n          <svg class=\"contact-icon\" fill=\"none\" stroke=\"currentColor\" viewBox=\"0 0 24 24\">\n            "
    ++ "<path stroke-linecap=\"round\" stroke-linejoin=\"round\" stroke-width=\"2\" d=\"M3 5a2 2 0 012-2h3.28a1 1 0 01.948.684l1.498 4.493a1 1 0 01-.502 1.21l-2.257 1.13a11.042 11.042 0 005.516 5.516l1.13-2.257a1 1 0 011.21-.502l4.493 1.498a1 1 0 01.684.949V19a2 2 0 01-2 2h-1C9.716 21 3 14.284 3 6V5z\"></path>\n          </svg>\n          "
    ++ "<a href=\"tel:" ++ phone ++ "\" class=\"contact-link\">" ++ escapeHtml phone
    ++ "</a>\n        </div>\n      "

/-- The website contact line, spliced with the raw website in the href and
the escaped display URL as the link text. -/
def websiteSection (website : String) : String :=
  let displayUrl := stripTrailingSlash (stripProtocol website)
  "\n        <div class=\"contact-item\">\n          <svg class=\"contact-icon\" fill=\"none\" stroke=\"currentColor\" viewBox=\"0 0 24 24\">\n            "
    ++ "<path stroke-linecap=\"round\" stroke-linejoin=\"round\" stroke-width=\"2\" d=\"M21 12a9 9 0 01-9 9m9-9a9 9 0 00-9-9m9 9H3m9 9v-9m0-9v9\"></path>\n          </svg>\n          "
    ++ "<a href=\"" ++ website ++ "\" target=\"_blank\" class=\"contact-link\">"
    ++ escapeHtml displayUrl ++ "</a>\n        </div>\n      "

/-- The opening-hours contact line (escaped text only). -/
def hoursSection (hours : String) : String :=
  "\n        <div class=\"contact-item\">\n          <svg class=\"contact-icon\" fill=\"none\" stroke=\"currentColor\" viewBox=\"0 0 24 24\">\n            "
    ++ "<path stroke-linecap=\"round\" stroke-linejoin=\"round\" stroke-width=\"2\" d=\"M12 8v4l3 3m6-3a9 9 0 11-18 0 9 9 0 0118 0z\"></path>\n          </svg>\n          "
    ++ "<span>" ++ escapeHtml hours ++ "</span>\n        </div>\n      "

/-- `PopupUI.createPopupContent(data)`: the full markup fragment.  Name,
category, address and hours pass through `escapeHtml` in their text
positions, but the phone is spliced raw into the `tel:` href, the website
raw into its link href, and the address (with only single quotes
backslash-escaped) raw into the copy-button's inline `onclick` handler. -/
def createPopupContent (data : PopupData) : String :=
  let name := data.name.getD "Unknown Location"
  let address := data.address.getD "Address not available"
  let type := data.type.getD "Location"
  let copyableAddress := escapeSingleQuotes address
  let header :=
    "\n      <div class=\"mapify-popup\">\n        <h3>" ++ escapeHtml name ++ "</h3>\n        "
      ++ (if type != "Location" then "<div class=\"category\">" ++ escapeHtml type ++ "</div>" else "")
      ++ "\n        <div class=\"address\">" ++ escapeHtml address
      ++ "</div>\n        <div class=\"contact-info\">\n    "
  let phonePart :=
    match data.phone with
    | some phone => if phone != "" && phone != "Not available" then phoneSection phone else ""
    | none => ""
  let websitePart :=
    match data.website with
    | some website => if website != "" then websiteSection website else ""
    | none => ""
  let hoursPart :=
    match data.hours with
    | some hours => if hours != "" && hours != "Not available" then hoursSection hours else ""
    | none => ""
  let footer :=
    "\n        </div>\n        <button class=\"copy-button\" onclick=\"this.copyAddress('"
      ++ copyableAddress
      ++ "', this)\">\n          <svg class=\"copy-icon\" fill=\"none\" stroke=\"currentColor\" viewBox=\"0 0 24 24\">\n            "
      ++ "<path stroke-linecap=\"round\" stroke-linejoin=\"round\" stroke-width=\"2\" d=\"M8 16H6a2 2 0 01-2-2V6a2 2 0 012-2h8a2 2 0 012 2v2m-6 12h8a2 2 0 002-2v-8a2 2 0 00-2-2h-8a2 2 0 00-2 2v8a2 2 0 002 2z\"></path>\n          </svg>\n          Copy Address\n        </button>\n      </div>\n    "
  header ++ phonePart ++ websitePart ++ hoursPart ++ footer

end PopupUI

/-- One record of the backend search response's `results` array,
restricted to the fields the marker-placement loop reads (`lat`, `lng`);
`none` models a missing field.  Coordinate values are opaque numbers,
modelled as integers; JS truthiness makes `0` falsy. -/
structure SearchResult where
  lat : Option Int
  lng : Option Int
deriving DecidableEq

/-- JS truthiness of a number-or-undefined value: `undefined` and `0`
are falsy. -/
def truthyNum : Option Int → Bool
  | none => false
  | some n => !(n == 0)

/-- The backend `/search` HTTP response: its `ok` flag and the optional
`results` field of its JSON body. -/
structure SearchResponse where
  ok : Bool
  results : Option (List SearchResult)

/-- The mutable state of one `MapManager` (Map Session): whether
`this.map` still holds the widget (`null` after destroy), the search
marker list, and the event registry (event name, callback identity).
`fired` logs the callbacks `emit` actually invoked and `emits` logs each
`this.emit(event, ...)` call, so theorems can speak about notifications. -/
structure MapState where
  mapPresent : Bool
  markers : List (Int × Int)
  listeners : List (String × Nat)
  fired : List (String × Nat)
  emits : List String
deriving DecidableEq

namespace ApiManager

/-- `ApiManager.searchPlaces(apiKey, params)`: a rejected fetch lands in
the `catch` (which resolves with `[]`); a non-OK HTTP status throws
`Search API error` inside the `try`, which the same `catch` turns into
`[]`; otherwise `data.results || []`. -/
def searchPlaces (request : Except String SearchResponse) : List SearchResult :=
  match request with
  | .error _ => []
  | .ok response =>
      if !response.ok then []
      else response.results.getD []

end ApiManager

namespace MapManager

/-- `MapManager.emit(event, data)`: invokes every currently registered
callback for `event` (there is no listener → the publication is a no-op
on callbacks).  The `emits` log records the publication itself. -/
def emit (st : MapState) (event : String) : MapState :=
  { st with
    emits := st.emits ++ [event]
    fired := st.fired ++ st.listeners.filter (fun l => l.1 == event) }

/-- `MapManager.clearSearchMarkers()`: `this.map.removeLayer(marker)` for
each marker, then reset the list.  Iterating an empty list touches
`this.map` not at all; with markers present and the map released the
first `removeLayer` call dereferences `null` and throws. -/
def clearSearchMarkers (st : MapState) : Except (String × MapState) MapState :=
  if st.markers.isEmpty then .ok { st with markers := [] }
  else if st.mapPresent then .ok { st with markers := [] }
  else .error ("TypeError: this.map is null", st)

/-- The `results.forEach` marker-placement loop of `MapManager.search`:
a result passes the `if (result.lat && result.lng)` truthiness guard or
is skipped; a passing result's `L.marker(...).addTo(this.map)` throws
when the map has been released (before any push onto `this.markers`). -/
def addResultMarkers (st : MapState) : List SearchResult → Except (String × MapState) MapState
  | [] => .ok st
  | result :: rest =>
      if truthyNum result.lat && truthyNum result.lng then
        if st.mapPresent then
          addResultMarkers
            { st with markers := st.markers ++ [(result.lat.getD 0, result.lng.getD 0)] } rest
        else .error ("TypeError: cannot addTo a null map", st)
      else addResultMarkers st rest

/-- The `if (results.length > 0) { ... this.map.fitBounds(...) }` step:
the member access `this.map.fitBounds` dereferences the released handle
and throws when the map is gone; on a live map the fit succeeds (the
external library's handling of the bounds is out of scope and modelled
as benign). -/
def fitBoundsStep (st : MapState) (results : List SearchResult) :
    Except (String × MapState) MapState :=
  if results.length > 0 then
    if st.mapPresent then .ok st
    else .error ("TypeError: this.map is null", st)
  else .ok st

/-- The body of `MapManager.search`'s `try` block from the point the
awaited `searchPlaces` call has settled with `results`: clear old
markers, place new ones, fit bounds, emit `search`, return `results`.
An error carries the session state at the throw point. -/
def searchAfterAwait (st : MapState) (results : List SearchResult) :
    Except (String × MapState) (MapState × List SearchResult) :=
  match clearSearchMarkers st with
  | .error e => .error e
  | .ok st1 =>
      match addResultMarkers st1 results with
      | .error e => .error e
      | .ok st2 =>
          match fitBoundsStep st2 results with
          | .error e => .error e
          | .ok st3 => .ok (emit st3 "search", results)

/-- Resumption of `MapManager.search` after its awaited network call
settles, with the surrounding `catch` (`emit('searchError'); return []`)
applied to the state as of the throw. -/
def searchCompletion (st : MapState) (results : List SearchResult) :
    MapState × List SearchResult :=
  match searchAfterAwait st results with
  | .ok r => r
  | .error (_, stAtThrow) => (emit stAtThrow "searchError", [])

/-- `MapManager.search(query, options)` on a session, as a function of
the session state and the backend request's outcome (the pre-await part
— centre resolution and `parseSearchQuery` — succeeds on a live
session). -/
def search (st : MapState) (request : Except String SearchResponse) :
    MapState × List SearchResult :=
  searchCompletion st (ApiManager.searchPlaces request)

/-- Resumption of `MapManager.handleMapClick` after its awaited
`getPlaceDetails` call resolves with `placeData`: format the data, build
the popup markup, set it on the (local) loading-popup handle, and emit
`placeClick`.  None of these steps reads `this.map` or touches
`this.markers`; the built content is returned alongside the state. -/
def clickCompletion (st : MapState) (placeData : PlaceDataRaw) (lat lng : Int) :
    MapState × String :=
  let formattedData := formatPlaceData placeData lat lng
  let content := PopupUI.createPopupContent
    { name := some formattedData.name
      address := some formattedData.address
      type := some formattedData.type
      phone := some formattedData.phone
      website := formattedData.website
      hours := some formattedData.hours }
  (emit st "placeClick", content)

/-- `MapManager.destroy()`: when the map is live, clear the search
markers, release the widget and null the handle; in every case clear the
event registry. -/
def destroy (st : MapState) : MapState :=
  if st.mapPresent then
    { st with mapPresent := false, markers := [], listeners := [] }
  else
    { st with listeners := [] }

end MapManager

namespace MapifyOS

/-- The facade's `this.instances` registry: container id → Map Session. -/
structure Facade where
  instances : List (String × MapState)

/-- `this.instances.get(containerId)`. -/
def Facade.get (f : Facade) (containerId : String) : Option MapState :=
  (List.find? (fun p => p.1 == containerId) f.instances).map (fun p => p.2)

/-- The message of the `Error` both `MapifyOS.search` and
`MapifyOS.showPopup` throw for an unknown container id. -/
def notFoundMsg (containerId : String) : String :=
  "Map instance '" ++ containerId ++ "' not found"

/-- `MapifyOS.search(containerId, query, options)`: throws for an unknown
container id, else delegates to the session's `search`. -/
def search (f : Facade) (containerId : String)
    (request : Except String SearchResponse) :
    Except String (MapState × List SearchResult) :=
  match f.get containerId with
  | none => .error (notFoundMsg containerId)
  | some st => .ok (MapManager.search st request)

/-- `MapifyOS.showPopup(containerId, lat, lng, data)`: throws for an
unknown container id, else renders the popup content and shows it (the
show step on a live session is benign; the rendered markup is
returned). -/
def showPopup (f : Facade) (containerId : String) (data : PopupUI.PopupData) :
    Except String String :=
  match f.get containerId with
  | none => .error (notFoundMsg containerId)
  | some _ => .ok (PopupUI.createPopupContent data)

/-- `MapifyOS.destroy(containerId)`: `if (mapInstance) { ... }` — an
unknown container id falls through the guard and the call returns
normally with the registry unchanged (no throw); a known id destroys the
session and deletes the registry entry. -/
def destroy (f : Facade) (containerId : String) : Except String Facade :=
  match f.get containerId with
  | none => .ok f
  | some _ =>
      .ok { instances := f.instances.filter (fun p => !(p.1 == containerId)) }

end MapifyOS

/-- `pat.isPrefixOf` at some position of the list: an executable
substring test. -/
def hasInfix (pat : List Char) : List Char → Bool
  | [] => pat.isEmpty
  | c :: cs => pat.isPrefixOf (c :: cs) || hasInfix pat cs

/-- `s` contains `pat` as a contiguous substring. -/
def containsSubstring (s pat : String) : Bool :=
  hasInfix pat.data s.data

/-! ## Helper lemmas -/

theorem firstTruthy_of_all_false {l : List (Option String)}
    (h : ∀ o ∈ l, truthy o = false) : firstTruthy l = none := by
  induction l with
  | nil => rfl
  | cons o rest ih =>
      have h0 : truthy o = false := h o (List.mem_cons_self o rest)
      simp only [firstTruthy, h0, Bool.false_eq_true, if_false]
      exact ih (fun o' ho' => h o' (List.mem_cons_of_mem o ho'))

theorem firstTruthy_eq_get (l : List (Option String)) (i : Nat) (h : i < l.length)
    (ht : truthy (l.get ⟨i, h⟩) = true)
    (hb : ∀ j (hj : j < i), truthy (l.get ⟨j, Nat.lt_trans hj h⟩) = false) :
    firstTruthy l = l.get ⟨i, h⟩ := by
  induction l generalizing i with
  | nil => exact absurd h (Nat.not_lt_zero i)
  | cons o rest ih =>
      cases i with
      | zero =>
          simp only [List.get] at ht
          simp [firstTruthy, ht]
      | succ n =>
          have h0 : truthy o = false := hb 0 (Nat.succ_pos n)
          have hn : n < rest.length := Nat.lt_of_succ_lt_succ h
          simp only [List.get] at ht ⊢
          simp only [firstTruthy, h0, Bool.false_eq_true, if_false]
          exact ih n hn ht (fun j hj => hb (j + 1) (Nat.succ_lt_succ hj))

theorem firstTruthy_mem {l : List (Option String)} {v : String}
    (h : firstTruthy l = some v) : some v ∈ l ∧ truthy (some v) = true := by
  induction l with
  | nil => exact absurd h (by simp [firstTruthy])
  | cons o rest ih =>
      by_cases h0 : truthy o = true
      · have : o = some v := by simpa [firstTruthy, h0] using h
        subst this
        exact ⟨List.mem_cons_self _ _, h0⟩
      · have h0' : truthy o = false := by simpa using h0
        have h' : firstTruthy rest = some v := by simpa [firstTruthy, h0'] using h
        exact ⟨List.mem_cons_of_mem o (ih h').1, (ih h').2⟩

theorem titleCaseAux_length (b : Bool) (l : List Char) :
    (titleCaseAux b l).length = l.length := by
  induction l generalizing b with
  | nil => rfl
  | cons c cs ih => simp [titleCaseAux, ih]

theorem formatTagValue_ne_empty {v : String} (hv : v ≠ "") : formatTagValue v ≠ "" := by
  intro hcontra
  apply hv
  have hdata : (formatTagValue v).data = [] := congrArg String.data hcontra
  have hlen : (formatTagValue v).data.length = v.data.length := by
    simp [formatTagValue, titleCase, underscoreToSpace, titleCaseAux_length]
  rw [hdata] at hlen
  have : v.data = [] := List.length_eq_zero.mp hlen.symm
  cases v with
  | mk data => simp_all

/-! ## C5: Category Formatter priority order -/

/-- C5: the Category Formatter scans the candidate keys in exactly the
fixed order amenity, shop, building, leisure, tourism, highway, office,
craft and returns the first truthy value, underscores switched to spaces
and each word's first letter capitalized; it returns "Location" when no
candidate key has a (non-empty) value; in particular a bag with
`shop="convenience_store"` and no truthy amenity yields
"Convenience Store" regardless of lower-priority keys. -/
theorem formatCategory_priority_order (tags : TagBag) :
    ((∀ k ∈ categoryKeys, truthy (tags.find k) = false) →
      MapManager.formatCategory (some tags) = "Location")
    ∧ (∀ i (h : i < categoryKeys.length),
        truthy (tags.find (categoryKeys.get ⟨i, h⟩)) = true →
        (∀ j (hj : j < i), truthy (tags.find (categoryKeys.get ⟨j, Nat.lt_trans hj h⟩)) = false) →
        MapManager.formatCategory (some tags)
          = formatTagValue ((tags.find (categoryKeys.get ⟨i, h⟩)).getD ""))
    ∧ (tags.find "shop" = some "convenience_store" →
        truthy (tags.find "amenity") = false →
        MapManager.formatCategory (some tags) = "Convenience Store") := by
  have hmaplen : (categoryKeys.map tags.find).length = categoryKeys.length :=
    List.length_map _ _
  have hget : ∀ i (h : i < categoryKeys.length),
      (categoryKeys.map tags.find).get ⟨i, by rw [hmaplen]; exact h⟩
        = tags.find (categoryKeys.get ⟨i, h⟩) := by
    intro i h
    simp [List.getElem_map]
  have main : ∀ i (h : i < categoryKeys.length),
      truthy (tags.find (categoryKeys.get ⟨i, h⟩)) = true →
      (∀ j (hj : j < i), truthy (tags.find (categoryKeys.get ⟨j, Nat.lt_trans hj h⟩)) = false) →
      MapManager.formatCategory (some tags)
        = formatTagValue ((tags.find (categoryKeys.get ⟨i, h⟩)).getD "") := by
    intro i h ht hb
    have hmem : i < (categoryKeys.map tags.find).length := by rw [hmaplen]; exact h
    have hfirst : firstTruthy (categoryKeys.map tags.find)
        = (categoryKeys.map tags.find).get ⟨i, hmem⟩ := by
      apply firstTruthy_eq_get
      · rw [hget i h]; exact ht
      · intro j hj
        rw [show ((categoryKeys.map tags.find).get ⟨j, Nat.lt_trans hj hmem⟩)
              = tags.find (categoryKeys.get ⟨j, Nat.lt_trans hj h⟩) from by simp [List.getElem_map]]
        exact hb j hj
    rw [hget i h] at hfirst
    cases hfind : tags.find (categoryKeys.get ⟨i, h⟩) with
    | none => rw [hfind] at ht; simp [truthy] at ht
    | some v =>
        rw [hfind] at hfirst
        simp only [MapManager.formatCategory, hfirst, Option.getD_some]
  refine ⟨?_, main, ?_⟩
  · intro hall
    have : firstTruthy (categoryKeys.map tags.find) = none := by
      apply firstTruthy_of_all_false
      intro o ho
      obtain ⟨k, hk, rfl⟩ := List.mem_map.mp ho
      exact hall k hk
    simp [MapManager.formatCategory, this]
  · intro hshop hamenity
    have h1 : (1 : Nat) < categoryKeys.length := by decide
    have := main 1 h1 (by
        show truthy (tags.find "shop") = true
        rw [hshop]; rfl)
      (by
        intro j hj
        interval_cases j
        exact hamenity)
    rw [this]
    show formatTagValue ((tags.find "shop").getD "") = "Convenience Store"
    rw [hshop]
    decide

theorem jsOr_truthy {a b : Option String} (h : truthy a = true) : jsOr a b = a := by
  simp [jsOr, h]

theorem jsOr_falsy {a b : Option String} (h : truthy a = false) : jsOr a b = b := by
  simp [jsOr, h]

theorem jsGetD_truthy {a : Option String} {d : String} (h : truthy a = true) :
    jsGetD a d = a.getD "" := by
  cases a with
  | none => simp [truthy] at h
  | some s => simp [jsGetD, h]

theorem jsGetD_falsy {a : Option String} {d : String} (h : truthy a = false) :
    jsGetD a d = d := by
  simp [jsGetD, h]

theorem jsTruthyOpt_truthy {a : Option String} (h : truthy a = true) : jsTruthyOpt a = a := by
  simp [jsTruthyOpt, h]

theorem jsTruthyOpt_falsy {a : Option String} (h : truthy a = false) : jsTruthyOpt a = none := by
  simp [jsTruthyOpt, h]

/-- Witness for C5: a concrete bag carrying `shop="convenience_store"`
and the lower-priority key `building="yes"` formats to
"Convenience Store". -/
theorem formatCategory_priority_order_witness :
    MapManager.formatCategory (some [("shop", "convenience_store"), ("building", "yes")])
      = "Convenience Store" :=
  (formatCategory_priority_order [("shop", "convenience_store"), ("building", "yes")]).2.2
    rfl rfl

/-! ## C6: name resolution precedence -/

/-- C6: `formatPlaceData` resolves `name` by the exact four-tier
precedence tag `"name"` → geocode short `name` → first comma-segment of
the geocode `display_name` → literal `"Unknown Location"`, each tier
reached exactly when every earlier tier is absent/falsy. -/
theorem formatPlaceData_name_precedence (placeData : PlaceDataRaw) (lat lng : Int) :
    (truthy (((placeData.overpass.bind OverpassElement.tags).getD []).find "name") = true →
      (MapManager.formatPlaceData placeData lat lng).name
        = (((placeData.overpass.bind OverpassElement.tags).getD []).find "name").getD "")
    ∧ (truthy (((placeData.overpass.bind OverpassElement.tags).getD []).find "name") = false →
        truthy (placeData.nominatim.bind NominatimData.name) = true →
        (MapManager.formatPlaceData placeData lat lng).name
          = (placeData.nominatim.bind NominatimData.name).getD "")
    ∧ (truthy (((placeData.overpass.bind OverpassElement.tags).getD []).find "name") = false →
        truthy (placeData.nominatim.bind NominatimData.name) = false →
        truthy ((placeData.nominatim.bind NominatimData.display_name).map firstCommaSegment)
          = true →
        (MapManager.formatPlaceData placeData lat lng).name
          = ((placeData.nominatim.bind NominatimData.display_name).map firstCommaSegment).getD "")
    ∧ (truthy (((placeData.overpass.bind OverpassElement.tags).getD []).find "name") = false →
        truthy (placeData.nominatim.bind NominatimData.name) = false →
        truthy ((placeData.nominatim.bind NominatimData.display_name).map firstCommaSegment)
          = false →
        (MapManager.formatPlaceData placeData lat lng).name = "Unknown Location") := by
  refine ⟨?_, ?_, ?_, ?_⟩
  · intro h1
    simp [MapManager.formatPlaceData, jsOr_truthy h1, jsGetD_truthy h1]
  · intro h1 h2
    simp [MapManager.formatPlaceData, jsOr_falsy h1, jsOr_truthy h2, jsGetD_truthy h2]
  · intro h1 h2 h3
    simp only [Option.map_bind'] at h3
    simp [MapManager.formatPlaceData, jsOr_falsy h1, jsOr_falsy h2, jsGetD_truthy h3]
  · intro h1 h2 h3
    simp only [Option.map_bind'] at h3
    simp [MapManager.formatPlaceData, jsOr_falsy h1, jsOr_falsy h2, jsGetD_falsy h3]

/-- Witness for C6: the four tiers evaluated at concrete inputs — a tag
name wins; with no tag name the geocode short name wins; with neither,
the first comma-segment of the display string; with nothing, the
literal. -/
theorem formatPlaceData_name_precedence_witness :
    (MapManager.formatPlaceData
        ⟨some ⟨some "Geo", some "A, B"⟩, some ⟨some [("name", "Cafe Duo")]⟩⟩ 1 2).name
        = "Cafe Duo"
    ∧ (MapManager.formatPlaceData ⟨some ⟨some "Geo", some "A, B"⟩, none⟩ 1 2).name = "Geo"
    ∧ (MapManager.formatPlaceData ⟨some ⟨none, some "First Part, Rest"⟩, none⟩ 1 2).name
        = "First Part"
    ∧ (MapManager.formatPlaceData ⟨none, none⟩ 1 2).name = "Unknown Location" :=
  ⟨(formatPlaceData_name_precedence
      ⟨some ⟨some "Geo", some "A, B"⟩, some ⟨some [("name", "Cafe Duo")]⟩⟩ 1 2).1 (by decide),
   (formatPlaceData_name_precedence ⟨some ⟨some "Geo", some "A, B"⟩, none⟩ 1 2).2.1
      (by decide) (by decide),
   (formatPlaceData_name_precedence ⟨some ⟨none, some "First Part, Rest"⟩, none⟩ 1 2).2.2.1
      (by decide) (by decide) (by decide),
   (formatPlaceData_name_precedence ⟨none, none⟩ 1 2).2.2.2
      (by decide) (by decide) (by decide)⟩

/-! ## C7: phone / hours / website resolution -/

/-- C7: `formatPlaceData` resolves `phone` as `"phone"` then
`"contact:phone"` else the sentinel `"Not available"`; `hours` as
`"opening_hours"` else `"Not available"`; `website` as `"website"` then
`"contact:website"` then the generic `"url"` key, else the explicit
absent value `none` (never a sentinel string). -/
theorem formatPlaceData_contact_precedence (placeData : PlaceDataRaw) (lat lng : Int) :
    (truthy (((placeData.overpass.bind OverpassElement.tags).getD []).find "phone") = true →
      (MapManager.formatPlaceData placeData lat lng).phone
        = (((placeData.overpass.bind OverpassElement.tags).getD []).find "phone").getD "")
    ∧ (truthy (((placeData.overpass.bind OverpassElement.tags).getD []).find "phone") = false →
        truthy (((placeData.overpass.bind OverpassElement.tags).getD []).find "contact:phone")
          = true →
        (MapManager.formatPlaceData placeData lat lng).phone
          = (((placeData.overpass.bind OverpassElement.tags).getD []).find "contact:phone").getD "")
    ∧ (truthy (((placeData.overpass.bind OverpassElement.tags).getD []).find "phone") = false →
        truthy (((placeData.overpass.bind OverpassElement.tags).getD []).find "contact:phone")
          = false →
        (MapManager.formatPlaceData placeData lat lng).phone = "Not available")
    ∧ (truthy (((placeData.overpass.bind OverpassElement.tags).getD []).find "opening_hours")
          = true →
        (MapManager.formatPlaceData placeData lat lng).hours
          = (((placeData.overpass.bind OverpassElement.tags).getD []).find "opening_hours").getD "")
    ∧ (truthy (((placeData.overpass.bind OverpassElement.tags).getD []).find "opening_hours")
          = false →
        (MapManager.formatPlaceData placeData lat lng).hours = "Not available")
    ∧ (truthy (((placeData.overpass.bind OverpassElement.tags).getD []).find "website") = true →
        (MapManager.formatPlaceData placeData lat lng).website
          = ((placeData.overpass.bind OverpassElement.tags).getD []).find "website")
    ∧ (truthy (((placeData.overpass.bind OverpassElement.tags).getD []).find "website") = false →
        truthy (((placeData.overpass.bind OverpassElement.tags).getD []).find "contact:website")
          = true →
        (MapManager.formatPlaceData placeData lat lng).website
          = ((placeData.overpass.bind OverpassElement.tags).getD []).find "contact:website")
    ∧ (truthy (((placeData.overpass.bind OverpassElement.tags).getD []).find "website") = false →
        truthy (((placeData.overpass.bind OverpassElement.tags).getD []).find "contact:website")
          = false →
        truthy (((placeData.overpass.bind OverpassElement.tags).getD []).find "url") = true →
        (MapManager.formatPlaceData placeData lat lng).website
          = ((placeData.overpass.bind OverpassElement.tags).getD []).find "url")
    ∧ (truthy (((placeData.overpass.bind OverpassElement.tags).getD []).find "website") = false →
        truthy (((placeData.overpass.bind OverpassElement.tags).getD []).find "contact:website")
          = false →
        truthy (((placeData.overpass.bind OverpassElement.tags).getD []).find "url") = false →
        (MapManager.formatPlaceData placeData lat lng).website = none) := by
  refine ⟨?_, ?_, ?_, ?_, ?_, ?_, ?_, ?_, ?_⟩
  · intro h1
    simp [MapManager.formatPlaceData, jsOr_truthy h1, jsGetD_truthy h1]
  · intro h1 h2
    simp [MapManager.formatPlaceData, jsOr_falsy h1, jsOr_truthy h2, jsGetD_truthy h2]
  · intro h1 h2
    simp [MapManager.formatPlaceData, jsOr_falsy h1, jsOr_falsy h2, jsGetD_falsy h2]
  · intro h1
    simp [MapManager.formatPlaceData, jsGetD_truthy h1]
  · intro h1
    simp [MapManager.formatPlaceData, jsGetD_falsy h1]
  · intro h1
    simp [MapManager.formatPlaceData, jsOr_truthy h1, jsTruthyOpt_truthy h1]
  · intro h1 h2
    simp [MapManager.formatPlaceData, jsOr_falsy h1, jsOr_truthy h2, jsTruthyOpt_truthy h2]
  · intro h1 h2 h3
    simp [MapManager.formatPlaceData, jsOr_falsy h1, jsOr_falsy h2, jsTruthyOpt_truthy h3]
  · intro h1 h2 h3
    simp [MapManager.formatPlaceData, jsOr_falsy h1, jsOr_falsy h2, jsTruthyOpt_falsy h3]

/-- Witness for C7: concrete bags exercising the `contact:phone`
fallback, the `"Not available"` sentinels, the generic `url` website
tier, and the absent website value. -/
theorem formatPlaceData_contact_precedence_witness :
    (MapManager.formatPlaceData
        ⟨none, some ⟨some [("contact:phone", "+1-555-0100")]⟩⟩ 1 2).phone = "+1-555-0100"
    ∧ (MapManager.formatPlaceData ⟨none, some ⟨some [("name", "X")]⟩⟩ 1 2).phone
        = "Not available"
    ∧ (MapManager.formatPlaceData
        ⟨none, some ⟨some [("opening_hours", "24/7")]⟩⟩ 1 2).hours = "24/7"
    ∧ (MapManager.formatPlaceData ⟨none, some ⟨some [("name", "X")]⟩⟩ 1 2).hours
        = "Not available"
    ∧ (MapManager.formatPlaceData
        ⟨none, some ⟨some [("url", "http://x.example")]⟩⟩ 1 2).website
        = some "http://x.example"
    ∧ (MapManager.formatPlaceData ⟨none, some ⟨some [("name", "X")]⟩⟩ 1 2).website = none :=
  ⟨(formatPlaceData_contact_precedence
      ⟨none, some ⟨some [("contact:phone", "+1-555-0100")]⟩⟩ 1 2).2.1 (by decide) (by decide),
   (formatPlaceData_contact_precedence ⟨none, some ⟨some [("name", "X")]⟩⟩ 1 2).2.2.1
      (by decide) (by decide),
   (formatPlaceData_contact_precedence
      ⟨none, some ⟨some [("opening_hours", "24/7")]⟩⟩ 1 2).2.2.2.1 (by decide),
   (formatPlaceData_contact_precedence ⟨none, some ⟨some [("name", "X")]⟩⟩ 1 2).2.2.2.2.1
      (by decide),
   (formatPlaceData_contact_precedence
      ⟨none, some ⟨some [("url", "http://x.example")]⟩⟩ 1 2).2.2.2.2.2.2.2.1
      (by decide) (by decide) (by decide),
   (formatPlaceData_contact_precedence ⟨none, some ⟨some [("name", "X")]⟩⟩ 1 2).2.2.2.2.2.2.2.2
      (by decide) (by decide) (by decide)⟩

/-! ## C1: the category invariant -/

/-- C1 counterexample: the facade's `getPlaceDetails`, on a successful
lookup whose first Overpass element carries `amenity="fast_food"`,
returns the raw snake-case tag value `"fast_food"` as the record's
`type` — not the literal `"Location"` and not the formatted value
(`formatTagValue "fast_food" = "Fast Food"`), so the claimed invariant
fails on this public operation. -/
theorem facade_category_raw_counterexample :
    (MapifyOS.getPlaceDetails (.ok ⟨none, none⟩)
        (.ok ⟨some [⟨some [("amenity", "fast_food")]⟩]⟩) 1 2).type = "fast_food"
    ∧ "fast_food" ≠ "Location"
    ∧ "fast_food" ≠ formatTagValue "fast_food" := by
  refine ⟨by decide, by decide, by decide⟩

/-- C1 amended: the invariant does hold for the Map Session click
pipeline's `formatPlaceData` — its `category`/`type` is never empty, and
is either the literal `"Location"` or `formatTagValue` applied to a
non-empty candidate tag value of the bag; the facade's `getPlaceDetails`,
by contrast, returns the raw `amenity`/`shop`/`office`/`building` value
(fallback `"Building"`, or `"Location"` only on total lookup failure). -/
theorem formatPlaceData_category_invariant (placeData : PlaceDataRaw) (lat lng : Int) :
    (MapManager.formatPlaceData placeData lat lng).type ≠ ""
    ∧ ((MapManager.formatPlaceData placeData lat lng).type = "Location"
        ∨ ∃ v, some v ∈ categoryKeys.map ((placeData.overpass.bind OverpassElement.tags).getD []).find
            ∧ v ≠ ""
            ∧ (MapManager.formatPlaceData placeData lat lng).type = formatTagValue v) := by
  have htype : (MapManager.formatPlaceData placeData lat lng).type
      = MapManager.formatCategory (some ((placeData.overpass.bind OverpassElement.tags).getD []))
    := rfl
  rw [htype]
  cases hfirst : firstTruthy (categoryKeys.map
      ((placeData.overpass.bind OverpassElement.tags).getD []).find) with
  | none =>
      constructor
      · simp [MapManager.formatCategory, hfirst]
      · left; simp [MapManager.formatCategory, hfirst]
  | some v =>
      obtain ⟨hmem, htruthy⟩ := firstTruthy_mem hfirst
      have hv : v ≠ "" := by
        intro hcontra; subst hcontra; simp [truthy] at htruthy
      constructor
      · simpa [MapManager.formatCategory, hfirst] using formatTagValue_ne_empty hv
      · right
        exact ⟨v, hmem, hv, by simp [MapManager.formatCategory, hfirst]⟩

/-! ## C2: failure degradation of the place-resolution pipeline -/

theorem jsGetD_ne_empty {a : Option String} {d : String} (hd : d ≠ "") : jsGetD a d ≠ "" := by
  cases a with
  | none => simp only [jsGetD, truthy, if_false]; exact hd
  | some s =>
      by_cases hs : s = ""
      · subst hs; simp [jsGetD, truthy, hd]
      · simp [jsGetD, truthy, hs]

theorem formatCategory_ne_empty (o : Option TagBag) : MapManager.formatCategory o ≠ "" := by
  cases o with
  | none => decide
  | some tags =>
      cases hfirst : firstTruthy (categoryKeys.map tags.find) with
      | none => simp [MapManager.formatCategory, hfirst]
      | some v =>
          obtain ⟨_, htruthy⟩ := firstTruthy_mem hfirst
          have hv : v ≠ "" := by
            intro hcontra; subst hcontra; simp [truthy] at htruthy
          simpa [MapManager.formatCategory, hfirst] using formatTagValue_ne_empty hv

/-- C2 counterexample: with the reverse-geocode fetch rejecting and the
tag query ready to return `name="Joes"`, `amenity="cafe"`, the pipeline
resolves name `"Unknown Location"` and type `"Location"` — the single
`try`/`catch` of `ApiManager.getPlaceDetails` discards the tag data, so
the tag query's results are NOT still used as the claim states. -/
theorem resolvePlace_geocode_failure_counterexample :
    (MapManager.resolvePlace (.error "network error")
        (.ok ⟨some [⟨some [("name", "Joes"), ("amenity", "cafe")]⟩]⟩) 1 2).name
      = "Unknown Location"
    ∧ (MapManager.resolvePlace (.error "network error")
        (.ok ⟨some [⟨some [("name", "Joes"), ("amenity", "cafe")]⟩]⟩) 1 2).type
      = "Location"
    ∧ ("Unknown Location" : String) ≠ "Joes"
    ∧ ("Location" : String) ≠ formatTagValue "cafe" := by
  refine ⟨by decide, by decide, by decide, by decide⟩

/-- C2 amended: the pipeline never raises — for every pair of lookup
outcomes it returns a complete `PlaceRecord` (every string field
non-empty, the input coordinates passed through) — but failure is not
per-lookup: when either lookup fails, BOTH lookups' data is discarded
and every field falls to its fallback (`"Unknown Location"`,
`"Address not available"`, `"Location"`, `"Not available"`, absent
website). -/
theorem resolvePlace_degradation (nominatimFetch : Except String NominatimData)
    (overpassFetch : Except String OverpassResponse) (lat lng : Int) :
    (MapManager.resolvePlace nominatimFetch overpassFetch lat lng).lat = lat
    ∧ (MapManager.resolvePlace nominatimFetch overpassFetch lat lng).lng = lng
    ∧ (MapManager.resolvePlace nominatimFetch overpassFetch lat lng).name ≠ ""
    ∧ (MapManager.resolvePlace nominatimFetch overpassFetch lat lng).address ≠ ""
    ∧ (MapManager.resolvePlace nominatimFetch overpassFetch lat lng).type ≠ ""
    ∧ (MapManager.resolvePlace nominatimFetch overpassFetch lat lng).phone ≠ ""
    ∧ (MapManager.resolvePlace nominatimFetch overpassFetch lat lng).hours ≠ ""
    ∧ (((∃ e, nominatimFetch = Except.error e) ∨ (∃ e, overpassFetch = Except.error e)) →
        MapManager.resolvePlace nominatimFetch overpassFetch lat lng
          = { name := "Unknown Location", address := "Address not available"
              type := "Location", phone := "Not available", website := none
              hours := "Not available", lat := lat, lng := lng }) := by
  refine ⟨rfl, rfl, ?_, ?_, ?_, ?_, ?_, ?_⟩
  · exact jsGetD_ne_empty (by decide)
  · exact jsGetD_ne_empty (by decide)
  · exact formatCategory_ne_empty
      (some (((ApiManager.getPlaceDetails nominatimFetch
        overpassFetch).overpass.bind OverpassElement.tags).getD []))
  · exact jsGetD_ne_empty (by decide)
  · exact jsGetD_ne_empty (by decide)
  · rintro (⟨e, he⟩ | ⟨e, he⟩)
    · subst he; rfl
    · subst he
      cases nominatimFetch with
      | error e2 => rfl
      | ok nd => rfl

/-- Witness for C2 amended: a concrete total failure still yields the
complete all-fallback record with the coordinates passed through. -/
theorem resolvePlace_degradation_witness :
    MapManager.resolvePlace (.error "geocode down") (.error "overpass down") 7 9
      = { name := "Unknown Location", address := "Address not available"
          type := "Location", phone := "Not available", website := none
          hours := "Not available", lat := 7, lng := 9 } :=
  (resolvePlace_degradation (.error "geocode down") (.error "overpass down") 7 9).2.2.2.2.2.2.2
    (Or.inl ⟨"geocode down", rfl⟩)

/-! ## C3: escaping in the popup renderer -/

/-- C3, evaluated at a failing input: `createPopupContent` splices the
raw phone into the `tel:` link target, the raw website into its link
target, and the raw address into the copy-button's inline handler —
none of them HTML-escaped.  On a record whose phone is
`"><script>alert(1)</script>`, whose website is `x" onclick="alert(2)`
and whose address is `<b>bold</b>`, the returned fragment contains each
payload verbatim in the attribute position, although `escapeHtml`
(applied in the text positions) would have neutralized the markup. -/
theorem createPopupContent_unescaped_attribute_positions :
    containsSubstring
      (PopupUI.createPopupContent
        { name := some "Evil Corp", address := some "<b>bold</b>", type := some "Cafe"
          phone := some "\"><script>alert(1)</script>"
          website := some "x\" onclick=\"alert(2)", hours := some "9-5" })
      "href=\"tel:\"><script>alert(1)</script>\"" = true
    ∧ containsSubstring
        (PopupUI.createPopupContent
          { name := some "Evil Corp", address := some "<b>bold</b>", type := some "Cafe"
            phone := some "\"><script>alert(1)</script>"
            website := some "x\" onclick=\"alert(2)", hours := some "9-5" })
        "href=\"x\" onclick=\"alert(2)\" target=\"_blank\"" = true
    ∧ containsSubstring
        (PopupUI.createPopupContent
          { name := some "Evil Corp", address := some "<b>bold</b>", type := some "Cafe"
            phone := some "\"><script>alert(1)</script>"
            website := some "x\" onclick=\"alert(2)", hours := some "9-5" })
        "this.copyAddress('<b>bold</b>', this)" = true
    ∧ containsSubstring (PopupUI.escapeHtml "\"><script>alert(1)</script>") "<script>" = false
    ∧ containsSubstring (PopupUI.escapeHtml "<b>bold</b>") "<b>" = false := by
  set_option maxRecDepth 200000 in
  refine ⟨by decide, by decide, by decide, by decide, by decide⟩

/-! ## C4: search behaviour when the underlying request fails -/

/-- C4 counterexample: on a live session holding one stale marker, a
search whose backend request comes back with a non-OK HTTP status clears
the markers and returns the empty list, but publishes the ordinary
`search` event — `searchError` is never emitted, because
`ApiManager.searchPlaces` swallows the failure and resolves with `[]`. -/
theorem search_request_failure_counterexample :
    (MapManager.search
        { mapPresent := true, markers := [(3, 4)], listeners := [], fired := [], emits := [] }
        (.ok { ok := false, results := some [{ lat := some 1, lng := some 2 }] })).2 = []
    ∧ (MapManager.search
        { mapPresent := true, markers := [(3, 4)], listeners := [], fired := [], emits := [] }
        (.ok { ok := false, results := some [{ lat := some 1, lng := some 2 }] })).1.markers = []
    ∧ (MapManager.search
        { mapPresent := true, markers := [(3, 4)], listeners := [], fired := [], emits := [] }
        (.ok { ok := false, results := some [{ lat := some 1, lng := some 2 }] })).1.emits
        = ["search"]
    ∧ ("searchError" : String) ∉ ["search"] := by
  refine ⟨by decide, by decide, by decide, by decide⟩

/-- C4 amended: when the underlying search request fails (network
rejection or non-OK HTTP status), the session's `search` clears the
previously placed markers and returns the empty result list, but the
notification it publishes is the ordinary `search` event (with the empty
list) — `searchError` is emitted only when a step of `search`'s own body
throws, which a failed request never causes. -/
theorem search_request_failure_behaviour (st : MapState)
    (request : Except String SearchResponse)
    (hmap : st.mapPresent = true)
    (hfail : (∃ e, request = Except.error e)
      ∨ (∃ r, request = Except.ok r ∧ r.ok = false)) :
    (MapManager.search st request).2 = []
    ∧ (MapManager.search st request).1.markers = []
    ∧ (MapManager.search st request).1.emits = st.emits ++ ["search"] := by
  have hresults : ApiManager.searchPlaces request = [] := by
    rcases hfail with ⟨e, rfl⟩ | ⟨r, rfl, hr⟩
    · rfl
    · simp [ApiManager.searchPlaces, hr]
  have hclear : MapManager.clearSearchMarkers st = .ok { st with markers := [] } := by
    by_cases hm : st.markers.isEmpty <;>
      simp [MapManager.clearSearchMarkers, hm, hmap]
  refine ⟨?_, ?_, ?_⟩ <;>
    simp [MapManager.search, MapManager.searchCompletion, MapManager.searchAfterAwait,
      hresults, hclear, MapManager.addResultMarkers, MapManager.fitBoundsStep,
      MapManager.emit]

/-- Witness for C4 amended: a concrete failed request on a session with
one stale marker. -/
theorem search_request_failure_behaviour_witness :
    (MapManager.search
        { mapPresent := true, markers := [(9, 9)], listeners := [], fired := []
          emits := ["ready"] }
        (.error "network down")).2 = []
    ∧ (MapManager.search
        { mapPresent := true, markers := [(9, 9)], listeners := [], fired := []
          emits := ["ready"] }
        (.error "network down")).1.markers = []
    ∧ (MapManager.search
        { mapPresent := true, markers := [(9, 9)], listeners := [], fired := []
          emits := ["ready"] }
        (.error "network down")).1.emits = ["ready"] ++ ["search"] :=
  search_request_failure_behaviour
    { mapPresent := true, markers := [(9, 9)], listeners := [], fired := []
      emits := ["ready"] }
    (.error "network down") rfl (Or.inl ⟨"network down", rfl⟩)

/-! ## C8: facade lookups for unknown container identifiers -/

/-- C8 counterexample: `MapifyOS.destroy` on an empty registry and the
unknown identifier `"missing-map"` returns normally with the registry
unchanged — a silent no-op, not a raised error, because its body is
`if (mapInstance) { ... }` with no else branch. -/
theorem destroy_unknown_id_silent_counterexample :
    MapifyOS.destroy ⟨[]⟩ "missing-map" = Except.ok ⟨[]⟩
    ∧ (Except.ok (MapifyOS.Facade.mk [])
        ≠ (Except.error (MapifyOS.notFoundMsg "missing-map")
            : Except String MapifyOS.Facade)) := by
  exact ⟨rfl, by simp⟩

/-- C8 amended: of the facade's lookup-by-identifier operations, `search`
and `showPopup` fail loudly for an unknown container identifier (they
throw an `Error` whose message names the identifier), but `destroy`
silently does nothing: it returns normally and leaves the registry
untouched. -/
theorem facade_unknown_id_behaviour (f : MapifyOS.Facade) (containerId : String)
    (request : Except String SearchResponse) (data : PopupUI.PopupData)
    (h : f.get containerId = none) :
    MapifyOS.search f containerId request = .error (MapifyOS.notFoundMsg containerId)
    ∧ MapifyOS.showPopup f containerId data = .error (MapifyOS.notFoundMsg containerId)
    ∧ MapifyOS.destroy f containerId = .ok f := by
  refine ⟨?_, ?_, ?_⟩ <;>
    simp [MapifyOS.search, MapifyOS.showPopup, MapifyOS.destroy, h]

/-- Witness for C8 amended: the empty registry with identifier `"m1"`. -/
theorem facade_unknown_id_behaviour_witness :
    MapifyOS.search ⟨[]⟩ "m1" (.error "x") = .error (MapifyOS.notFoundMsg "m1")
    ∧ MapifyOS.showPopup ⟨[]⟩ "m1" {} = .error (MapifyOS.notFoundMsg "m1")
    ∧ MapifyOS.destroy ⟨[]⟩ "m1" = .ok ⟨[]⟩ :=
  facade_unknown_id_behaviour ⟨[]⟩ "m1" (.error "x") {} rfl

/-! ## C10: marker placement filters zero / missing coordinates -/

theorem addResultMarkers_live (st : MapState) (results : List SearchResult)
    (h : st.mapPresent = true) :
    MapManager.addResultMarkers st results
      = .ok { st with
          markers := st.markers
            ++ (results.filter (fun r => truthyNum r.lat && truthyNum r.lng)).map
                (fun r => (r.lat.getD 0, r.lng.getD 0)) } := by
  induction results generalizing st with
  | nil => simp [MapManager.addResultMarkers]
  | cons r rest ih =>
      by_cases hr : (truthyNum r.lat && truthyNum r.lng) = true
      · rw [show MapManager.addResultMarkers st (r :: rest)
            = MapManager.addResultMarkers
                { st with markers := st.markers ++ [(r.lat.getD 0, r.lng.getD 0)] } rest from by
          simp [MapManager.addResultMarkers, hr, h]]
        rw [ih { st with markers := st.markers ++ [(r.lat.getD 0, r.lng.getD 0)] } h]
        simp [hr, List.append_assoc]
      · have hr' : (truthyNum r.lat && truthyNum r.lng) = false := by
          simpa using hr
        rw [show MapManager.addResultMarkers st (r :: rest)
            = MapManager.addResultMarkers st rest from by
          simp [MapManager.addResultMarkers, hr']]
        rw [ih st h]
        simp [hr']

/-- C10: on a live session, `search` returns the backend's full result
list, but places a marker only for the results whose `lat` and `lng` are
both present and non-zero — a result with a missing coordinate or a
coordinate of exactly 0 is skipped by the `if (result.lat && result.lng)`
truthiness guard while still appearing in the returned list. -/
theorem search_zero_coordinate_marker_filter (st : MapState)
    (request : Except String SearchResponse) (hmap : st.mapPresent = true) :
    (MapManager.search st request).2 = ApiManager.searchPlaces request
    ∧ (MapManager.search st request).1.markers
        = ((ApiManager.searchPlaces request).filter
            (fun r => truthyNum r.lat && truthyNum r.lng)).map
            (fun r => (r.lat.getD 0, r.lng.getD 0)) := by
  have hclear : MapManager.clearSearchMarkers st = .ok { st with markers := [] } := by
    by_cases hm : st.markers.isEmpty <;>
      simp [MapManager.clearSearchMarkers, hm, hmap]
  have hadd := addResultMarkers_live
    { mapPresent := true, markers := [], listeners := st.listeners
      fired := st.fired, emits := st.emits } (ApiManager.searchPlaces request) rfl
  constructor <;>
    simp [MapManager.search, MapManager.searchCompletion, MapManager.searchAfterAwait,
      hclear, hmap, hadd, MapManager.fitBoundsStep, MapManager.emit]

/-- Witness for C10: of three results — equator latitude `0`, good
coordinates `(5,6)`, missing latitude — only the middle one yields a
marker, while all three are returned. -/
theorem search_zero_coordinate_marker_filter_witness :
    (MapManager.search
        { mapPresent := true, markers := [], listeners := [], fired := [], emits := [] }
        (.ok { ok := true, results := some [⟨some 0, some 5⟩, ⟨some 5, some 6⟩, ⟨none, some 7⟩] })).2
      = [⟨some 0, some 5⟩, ⟨some 5, some 6⟩, ⟨none, some 7⟩]
    ∧ (MapManager.search
        { mapPresent := true, markers := [], listeners := [], fired := [], emits := [] }
        (.ok { ok := true, results := some [⟨some 0, some 5⟩, ⟨some 5, some 6⟩, ⟨none, some 7⟩] })).1.markers
      = [(5, 6)] :=
  ⟨(search_zero_coordinate_marker_filter
      { mapPresent := true, markers := [], listeners := [], fired := [], emits := [] }
      (.ok { ok := true, results := some [⟨some 0, some 5⟩, ⟨some 5, some 6⟩, ⟨none, some 7⟩] })
      rfl).1,
   (search_zero_coordinate_marker_filter
      { mapPresent := true, markers := [], listeners := [], fired := [], emits := [] }
      (.ok { ok := true, results := some [⟨some 0, some 5⟩, ⟨some 5, some 6⟩, ⟨none, some 7⟩] })
      rfl).2⟩

/-! ## C9: late completions after destroy -/

theorem addResultMarkers_released (st : MapState) (results : List SearchResult)
    (h : st.mapPresent = false) :
    MapManager.addResultMarkers st results = .ok st
    ∨ MapManager.addResultMarkers st results
        = .error ("TypeError: cannot addTo a null map", st) := by
  induction results with
  | nil => left; rfl
  | cons r rest ih =>
      by_cases hr : (truthyNum r.lat && truthyNum r.lng) = true
      · right; simp [MapManager.addResultMarkers, hr, h]
      · have hr' : (truthyNum r.lat && truthyNum r.lng) = false := by simpa using hr
        rcases ih with hok | herr
        · left; simpa [MapManager.addResultMarkers, hr'] using hok
        · right; simpa [MapManager.addResultMarkers, hr'] using herr

/-- C9: destroying a live session and then letting a still-pending
completion settle is a no-op on the released state.  The click
resolution's continuation (format, render, set the local popup's
content, emit `placeClick`) leaves the marker list empty and invokes no
callback (the registry was cleared); the search continuation likewise
leaves no marker and invokes no callback, returns the empty list, and
any `TypeError` its marker/bounds steps throw on the released map handle
is absorbed by `search`'s own catch, so nothing escapes (both
continuations are total functions of the state). -/
theorem destroyed_session_late_completion_noop (st0 : MapState)
    (placeData : PlaceDataRaw) (lat lng : Int) (results : List SearchResult)
    (hlive : st0.mapPresent = true) :
    ((MapManager.clickCompletion (MapManager.destroy st0) placeData lat lng).1.markers = []
      ∧ (MapManager.clickCompletion (MapManager.destroy st0) placeData lat lng).1.fired
          = st0.fired)
    ∧ ((MapManager.searchCompletion (MapManager.destroy st0) results).1.markers = []
      ∧ (MapManager.searchCompletion (MapManager.destroy st0) results).1.fired = st0.fired
      ∧ (MapManager.searchCompletion (MapManager.destroy st0) results).2 = []) := by
  have hD : MapManager.destroy st0
      = { mapPresent := false, markers := [], listeners := []
          fired := st0.fired, emits := st0.emits } := by
    simp [MapManager.destroy, hlive]
  rw [hD]
  refine ⟨⟨rfl, by simp [MapManager.clickCompletion, MapManager.emit]⟩, ?_⟩
  have hclear : MapManager.clearSearchMarkers
      { mapPresent := false, markers := [], listeners := []
        fired := st0.fired, emits := st0.emits }
      = .ok { mapPresent := false, markers := [], listeners := []
              fired := st0.fired, emits := st0.emits } := by
    simp [MapManager.clearSearchMarkers]
  rcases addResultMarkers_released
      { mapPresent := false, markers := [], listeners := []
        fired := st0.fired, emits := st0.emits } results rfl with hadd | hadd
  · cases results with
    | nil =>
        refine ⟨?_, ?_, ?_⟩ <;>
          simp [MapManager.searchCompletion, MapManager.searchAfterAwait, hclear, hadd,
            MapManager.fitBoundsStep, MapManager.emit]
    | cons r rest =>
        refine ⟨?_, ?_, ?_⟩ <;>
          simp [MapManager.searchCompletion, MapManager.searchAfterAwait, hclear, hadd,
            MapManager.fitBoundsStep, MapManager.emit]
  · refine ⟨?_, ?_, ?_⟩ <;>
      simp [MapManager.searchCompletion, MapManager.searchAfterAwait, hclear, hadd,
        MapManager.emit]

/-- Witness for C9: a live session holding one marker and one
`placeClick` subscriber is destroyed; a late click completion and a late
search completion (one good result) then settle without touching the
marker list, firing no callback, and reporting no results. -/
theorem destroyed_session_late_completion_noop_witness :
    ((MapManager.clickCompletion
        (MapManager.destroy
          { mapPresent := true, markers := [(1, 2)], listeners := [("placeClick", 7)]
            fired := [], emits := [] })
        ⟨none, none⟩ 3 4).1.markers = []
      ∧ (MapManager.clickCompletion
          (MapManager.destroy
            { mapPresent := true, markers := [(1, 2)], listeners := [("placeClick", 7)]
              fired := [], emits := [] })
          ⟨none, none⟩ 3 4).1.fired = [])
    ∧ ((MapManager.searchCompletion
          (MapManager.destroy
            { mapPresent := true, markers := [(1, 2)], listeners := [("placeClick", 7)]
              fired := [], emits := [] })
          [⟨some 3, some 4⟩]).1.markers = []
      ∧ (MapManager.searchCompletion
          (MapManager.destroy
            { mapPresent := true, markers := [(1, 2)], listeners := [("placeClick", 7)]
              fired := [], emits := [] })
          [⟨some 3, some 4⟩]).1.fired = []
      ∧ (MapManager.searchCompletion
          (MapManager.destroy
            { mapPresent := true, markers := [(1, 2)], listeners := [("placeClick", 7)]
              fired := [], emits := [] })
          [⟨some 3, some 4⟩]).2 = []) :=
  destroyed_session_late_completion_noop
    { mapPresent := true, markers := [(1, 2)], listeners := [("placeClick", 7)]
      fired := [], emits := [] }
    ⟨none, none⟩ 3 4 [⟨some 3, some 4⟩] rfl
